import Mathlib

/-
Shallow embedding of `src/app.py`, a Streamlit chat front-end for a
pandas-dataframe analysis agent.  The embedding models the repository's own
logic: CSV loading (`load_csv`), session-state bookkeeping
(`initialize_session_state`, `clear_chat_history`), the global chat-history
store (`store`, `get_session_history`), the chat interaction handler
(`handle_chat_interaction`) with its broad exception handler and matplotlib
figure capture, and the `main` control flow.  External effects (the pandas
CSV parser, the LLM agent call, the wall clock) enter as explicit inputs:
the parse outcome is an `Except`, the agent call outcome is an
`AgentResult`, and `pd.Timestamp.now().timestamp()` is a string parameter
`now`.  Matplotlib's global pyplot state is modelled by `PltState`:
`plt.clf()` clears the axes of the current figure in place (the figure
object keeps its identity), `plt.gcf()` returns the current figure, and the
agent's generated plotting code either draws on the current figure or
allocates a fresh one (`PlotEffect`).
-/

set_option autoImplicit false

namespace App

/-- Model of a loaded tabular dataset (`pd.DataFrame`): its observable
contents, as rows of cells. -/
structure DataFrame where
  rows : List (List String)
deriving DecidableEq, Repr

/-- A chat message as stored in `st.session_state.messages`:
`HumanMessage(content)` or `AIMessage(content, additional_kwargs={"plot": fig})`.
A figure object is identified by a numeric identity (Python object identity);
`plot = some f` models `"plot" in additional_kwargs` with value figure `f`. -/
inductive Msg where
  | human (content : String)
  | ai (content : String) (plot : Option Nat)
deriving DecidableEq, Repr

/-- Visible UI effects emitted by the script (st.error, st.success,
st.warning, st.info, st.markdown, st.pyplot, st.dataframe preview). -/
inductive UIEvent where
  | errorBox (text : String)
  | successBox (text : String)
  | warningBox (text : String)
  | infoBox (text : String)
  | markdown (text : String)
  | pyplotFig (figId : Nat)
  | dataframePreview (df : DataFrame)
deriving DecidableEq, Repr

/-- Global pyplot state: the identity of the current figure, how many axes
it currently has, and a counter for allocating fresh figure identities. -/
structure PltState where
  nextFig : Nat
  cur : Nat
  curAxes : Nat
deriving DecidableEq, Repr

/-- Behaviour of `plt.clf()`: the current figure keeps its identity, its
axes are cleared in place. -/
def PltState.clf (s : PltState) : PltState :=
  { s with curAxes := 0 }

/-- What the agent's generated code did to the global pyplot state during
one call: nothing, draw `n` axes onto the current figure, or create a fresh
figure carrying `n` axes (which becomes current). -/
inductive PlotEffect where
  | noPlot
  | drawOnCurrent (n : Nat)
  | makeNewFigure (n : Nat)
deriving DecidableEq, Repr

/-- Apply a `PlotEffect` to the pyplot state. -/
def PltState.applyEffect : PltState → PlotEffect → PltState
  | s, PlotEffect.noPlot => s
  | s, PlotEffect.drawOnCurrent n => { s with curAxes := s.curAxes + n }
  | s, PlotEffect.makeNewFigure n =>
      { nextFig := s.nextFig + 1, cur := s.nextFig, curAxes := n }

/-- Outcome of `agent_with_memory.invoke(...)`: the returned
`response["output"]` together with the plotting side effect, or a raised
exception with its text. -/
inductive AgentResult where
  | success (output : String) (plot : PlotEffect)
  | failure (err : String)
deriving DecidableEq, Repr

/-- The global dictionary `store = {}` mapping a session id to that
session's `InMemoryChatMessageHistory` (its list of messages). -/
abbrev Store : Type := List (String × List Msg)

/-- Dictionary access: `store[session_id]` when present
(`session_id in store`). -/
def storeLookup : Store → String → Option (List Msg)
  | [], _ => none
  | (k, h) :: rest, sid => if k = sid then some h else storeLookup rest sid

/-- `get_session_history(session_id)`: if the id is absent from `store`,
insert a fresh empty history; return the (possibly extended) store and the
history for this id. -/
def get_session_history (store : Store) (sid : String) : Store × List Msg :=
  match storeLookup store sid with
  | some h => (store, h)
  | none => ((sid, []) :: store, [])

/-- Appending messages to one session's existing history object
(`InMemoryChatMessageHistory.add_messages`), as done by
`RunnableWithMessageHistory` after a successful run. -/
def appendHistory (store : Store) (sid : String) (ms : List Msg) : Store :=
  store.map (fun e => if e.1 = sid then (e.1, e.2 ++ ms) else e)

/-- The `RunnableWithMessageHistory` wrapper around one agent call: it
fetches (creating if absent) the history for the configured session id, and
after a successful run records the input and output messages there.  On an
exception nothing is recorded, but the fetch has already ensured the entry
exists. -/
def invoke_with_memory (store : Store) (sid : String) (input : String)
    (r : AgentResult) : Store :=
  let fetched := (get_session_history store sid).1
  match r with
  | AgentResult.success out _ => appendHistory fetched sid [Msg.human input, Msg.ai out none]
  | AgentResult.failure _ => fetched

/-- `st.session_state` as used by this script: the keys `messages`,
`session_id` (each possibly not yet set) and `df_loaded`
(read with `st.session_state.get('df_loaded', False)`, so absence is
`false`). -/
structure SessionState where
  messages : Option (List Msg)
  session_id : Option String
  df_loaded : Bool
deriving DecidableEq, Repr

/-- `initialize_session_state()`: set `messages` to `[]` if absent, and
`session_id` to a timestamp-based fresh id if absent; existing values are
kept. -/
def initialize_session_state (now : String) (s : SessionState) : SessionState :=
  let s1 := match s.messages with
    | some _ => s
    | none => { s with messages := some [] }
  match s1.session_id with
  | some _ => s1
  | none => { s1 with session_id := some ("session_" ++ now) }

/-- `clear_chat_history()`: overwrite `session_id` with a new
timestamp-based id, empty the visible transcript, drop the `df_loaded`
flag, and show a success box. -/
def clear_chat_history (now : String) (_s : SessionState) :
    SessionState × List UIEvent :=
  ({ messages := some [],
     session_id := some ("session_" ++ now),
     df_loaded := false },
   [UIEvent.successBox "A conversa foi reiniciada!"])

/-- The agent object built by `initialize_agent(llm, df)`: a
`create_pandas_dataframe_agent` holding the dataframe it analyses, wrapped
with history.  Its behaviour on a call is external and enters the model as
an `AgentResult`. -/
structure Agent where
  df : DataFrame
deriving DecidableEq, Repr

/-- `initialize_agent(llm, df)`: construct the agent over `df`.  The
construction only wires the dataframe into the external library; it does
not alter it. -/
def initialize_agent (df : DataFrame) : Agent :=
  { df := df }

/-- The whole mutable state the script touches: the Streamlit session
state, the global history `store`, the global pyplot state, and the cached
dataset returned by `load_csv` for the current upload. -/
structure AppState where
  sess : SessionState
  store : Store
  plt : PltState
  df : Option DataFrame
deriving DecidableEq, Repr

/-- `load_csv(uploaded_file)`: `pd.read_csv` is external, so its outcome is
the input; on a parse exception the handler shows `st.error` and returns
`None`, and no exception propagates. -/
def load_csv (parse : Except String DataFrame) :
    Option DataFrame × List UIEvent :=
  match parse with
  | Except.ok df => (some df, [])
  | Except.error e =>
      (none, [UIEvent.errorBox ("Erro ao carregar o arquivo CSV: " ++ e)])

/-- The error text built in the `except` branch of
`handle_chat_interaction`. -/
def analysisError (e : String) : String :=
  "Ocorreu um erro durante a análise: " ++ e

/-- The content of the assistant message that `handle_chat_interaction`
stores for a given agent outcome: the agent's output on success, the error
text on failure. -/
def aiContentOf : AgentResult → String
  | AgentResult.success out _ => out
  | AgentResult.failure e => analysisError e

/-- `handle_chat_interaction(agent_with_memory)`: if the user submitted a
prompt, append it as a human message, clear the current pyplot figure,
invoke the agent; on success capture `plt.gcf()` and, if it has axes,
attach it to the assistant message via `additional_kwargs["plot"]`; on any
exception show the error and append it as the assistant message. -/
def handle_chat_interaction (promptOpt : Option String) (r : AgentResult)
    (st : AppState) : AppState × List UIEvent :=
  match promptOpt with
  | none => (st, [])
  | some prompt =>
    let msgs0 := st.sess.messages.getD []
    let sid := st.sess.session_id.getD ""
    let plt1 := st.plt.clf
    match r with
    | AgentResult.success output eff =>
      let store1 := invoke_with_memory st.store sid prompt (AgentResult.success output eff)
      let plt2 := plt1.applyEffect eff
      if plt2.curAxes ≠ 0 then
        ({ sess := { st.sess with
              messages := some (msgs0 ++ [Msg.human prompt, Msg.ai output (some plt2.cur)]) },
           store := store1, plt := plt2, df := st.df },
         [UIEvent.markdown prompt, UIEvent.pyplotFig plt2.cur])
      else
        ({ sess := { st.sess with
              messages := some (msgs0 ++ [Msg.human prompt, Msg.ai output none]) },
           store := store1, plt := plt2, df := st.df },
         [UIEvent.markdown prompt, UIEvent.markdown output])
    | AgentResult.failure e =>
      let store1 := invoke_with_memory st.store sid prompt (AgentResult.failure e)
      ({ sess := { st.sess with
            messages := some (msgs0 ++ [Msg.human prompt, Msg.ai (analysisError e) none]) },
         store := store1, plt := plt1, df := st.df },
       [UIEvent.markdown prompt, UIEvent.errorBox (analysisError e)])

/-- The re-rendering loop at the top of `main`: each stored message is shown
with `st.markdown`, and a stored plot attachment with `st.pyplot`. -/
def render_messages : List Msg → List UIEvent
  | [] => []
  | Msg.human c :: ms => UIEvent.markdown c :: render_messages ms
  | Msg.ai c none :: ms => UIEvent.markdown c :: render_messages ms
  | Msg.ai c (some f) :: ms =>
      UIEvent.markdown c :: UIEvent.pyplotFig f :: render_messages ms

/-- The reset button action on the whole state: `clear_chat_history` only
touches `st.session_state`; the global `store`, the pyplot state and the
cached dataset are untouched. -/
def resetAction (now : String) (st : AppState) : AppState × List UIEvent :=
  let (sess1, ui) := clear_chat_history now st.sess
  ({ sess := sess1, store := st.store, plt := st.plt, df := st.df }, ui)

/-- Result of one run of `main()`: the final state, the emitted UI, the
dataframe obtained for this upload, the constructed agent (when one was
initialized), and whether a chat interaction was processed. -/
structure MainResult where
  state : AppState
  ui : List UIEvent
  df : Option DataFrame
  agent : Option Agent
  chatProcessed : Bool
deriving DecidableEq, Repr

/-- `main()`, from `initialize_session_state` on: guard on the API key and
the upload, render the transcript, load the CSV, and when a dataframe was
obtained show the one-time preview, build the agent (whose construction may
raise, caught as a critical error), and process the chat interaction.
`apiKey = ""` models a falsy `google_api_key`, `upload = none` a missing
file, `initErr` an exception from `get_llm`/`initialize_agent`. -/
def main (now : String) (apiKey : String)
    (upload : Option (Except String DataFrame)) (initErr : Option String)
    (promptOpt : Option String) (r : AgentResult) (st0 : AppState) :
    MainResult :=
  let st1 : AppState := { st0 with sess := initialize_session_state now st0.sess }
  if apiKey = "" then
    { state := st1,
      ui := [UIEvent.warningBox "Por favor, insira sua chave de API na barra lateral para começar."],
      df := none, agent := none, chatProcessed := false }
  else
    match upload with
    | none =>
      { state := st1,
        ui := [UIEvent.infoBox "Aguardando o carregamento de um arquivo CSV..."],
        df := none, agent := none, chatProcessed := false }
    | some parse =>
      let uiHist := render_messages (st1.sess.messages.getD [])
      let loaded := load_csv parse
      match loaded.1 with
      | none =>
        { state := st1, ui := uiHist ++ loaded.2,
          df := none, agent := none, chatProcessed := false }
      | some df =>
        let preview :=
          if st1.sess.df_loaded then (st1, ([] : List UIEvent))
          else ({ st1 with sess := { st1.sess with df_loaded := true } },
                [UIEvent.successBox "Arquivo CSV carregado com sucesso! Amostra dos dados:",
                 UIEvent.dataframePreview df])
        let st2 : AppState := { preview.1 with df := some df }
        match initErr with
        | some e =>
          { state := st2,
            ui := uiHist ++ loaded.2 ++ preview.2 ++
              [UIEvent.errorBox ("Ocorreu um erro crítico ao inicializar o agente: " ++ e)],
            df := some df, agent := none, chatProcessed := false }
        | none =>
          let agent := initialize_agent df
          let chat := handle_chat_interaction promptOpt r st2
          { state := chat.1, ui := uiHist ++ loaded.2 ++ preview.2 ++ chat.2,
            df := some df, agent := some agent, chatProcessed := promptOpt.isSome }

/-- Example session state used to instantiate theorems with hypotheses. -/
def sessEx : SessionState :=
  { messages := some [], session_id := some "session_1", df_loaded := false }

/-- Example application state used to instantiate theorems with hypotheses. -/
def stEx : AppState :=
  { sess := sessEx, store := [],
    plt := { nextFig := 1, cur := 0, curAxes := 0 }, df := none }

theorem storeLookup_get_other (store : Store) (sid sid' : String)
    (h : sid' ≠ sid) :
    storeLookup (get_session_history store sid).1 sid' = storeLookup store sid' := by
  unfold get_session_history
  cases hl : storeLookup store sid with
  | some hist => rfl
  | none =>
    simp only [storeLookup]
    rw [if_neg (fun hh => h hh.symm)]

theorem storeLookup_appendHistory_other (sid sid' : String) (ms : List Msg)
    (h : sid' ≠ sid) (store : Store) :
    storeLookup (appendHistory store sid ms) sid' = storeLookup store sid' := by
  induction store with
  | nil => rfl
  | cons e rest ih =>
    by_cases hk : e.1 = sid
    · have hk' : ¬ e.1 = sid' := by
        rw [hk]; exact fun hh => h hh.symm
      simp only [appendHistory, List.map_cons] at ih ⊢
      rw [if_pos hk]
      simp only [storeLookup, if_neg hk']
      exact ih
    · simp only [appendHistory, List.map_cons] at ih ⊢
      rw [if_neg hk]
      by_cases hk2 : e.1 = sid'
      · simp only [storeLookup, if_pos hk2]
      · simp only [storeLookup, if_neg hk2]
        exact ih

theorem storeLookup_get_preserved (store : Store) (sid k : String)
    (h : List Msg) (hk : storeLookup store k = some h) :
    storeLookup (get_session_history store sid).1 k = some h := by
  unfold get_session_history
  cases hl : storeLookup store sid with
  | some hist => exact hk
  | none =>
    have hne : ¬ sid = k := by
      intro e; rw [e, hk] at hl; cases hl
    simp only [storeLookup, if_neg hne]
    exact hk

theorem get_session_history_mem (store : Store) (sid : String) (h : List Msg)
    (hk : storeLookup store sid = some h) :
    (get_session_history store sid).1 = store := by
  unfold get_session_history
  rw [hk]

theorem get_session_history_reads_own (store : Store) (sid : String) :
    (get_session_history store sid).2 = (storeLookup store sid).getD [] := by
  unfold get_session_history
  cases hl : storeLookup store sid <;> rfl

/-- C7: an operation with one session identifier (looking up or creating
via `get_session_history`, appending via the history wrapper) never reads
from or modifies the history entry of a different session identifier: the
other identifier's entry in the store is unchanged, and the history
returned for the first identifier is determined by that identifier's own
entry alone. -/
theorem c7_session_histories_disjoint (store : Store) (sid sid' : String)
    (ms : List Msg) (h : sid' ≠ sid) :
    storeLookup (get_session_history store sid).1 sid' = storeLookup store sid' ∧
    storeLookup (appendHistory store sid ms) sid' = storeLookup store sid' ∧
    (get_session_history store sid).2 = (storeLookup store sid).getD [] :=
  ⟨storeLookup_get_other store sid sid' h,
   storeLookup_appendHistory_other sid sid' ms h store,
   get_session_history_reads_own store sid⟩

theorem c7_witness :
    ("b" : String) ≠ "a" ∧
    (storeLookup (get_session_history [("a", [])] "a").1 "b"
        = storeLookup [("a", [])] "b" ∧
      storeLookup (appendHistory [("a", [])] "a" [Msg.human "x"]) "b"
        = storeLookup [("a", [])] "b" ∧
      (get_session_history [("a", [])] "a").2
        = (storeLookup [("a", [])] "a").getD []) :=
  ⟨by decide,
   c7_session_histories_disjoint [("a", [])] "a" "b" [Msg.human "x"] (by decide)⟩

/-- C9: the global store never shrinks: an existing entry survives any
`get_session_history` call, `get_session_history` leaves the store
untouched when the identifier is already present (it never overwrites),
and the reset action leaves the store untouched, so every history ever
created remains for the life of the process. -/
theorem c9_store_never_shrinks (store : Store) (sid k now : String)
    (h : List Msg) (st : AppState) (hk : storeLookup store k = some h) :
    storeLookup (get_session_history store sid).1 k = some h ∧
    (∀ h0, storeLookup store sid = some h0 → (get_session_history store sid).1 = store) ∧
    (resetAction now st).1.store = st.store :=
  ⟨storeLookup_get_preserved store sid k h hk,
   fun h0 hs => get_session_history_mem store sid h0 hs,
   rfl⟩

theorem c9_witness :
    storeLookup [("a", [Msg.human "x"])] "a" = some [Msg.human "x"] ∧
    (storeLookup (get_session_history [("a", [Msg.human "x"])] "b").1 "a"
        = some [Msg.human "x"] ∧
      (∀ h0, storeLookup [("a", [Msg.human "x"])] "b" = some h0 →
        (get_session_history [("a", [Msg.human "x"])] "b").1 = [("a", [Msg.human "x"])]) ∧
      (resetAction "7" stEx).1.store = stEx.store) :=
  ⟨by decide,
   c9_store_never_shrinks [("a", [Msg.human "x"])] "b" "a" "7"
     [Msg.human "x"] stEx (by decide)⟩

/-- C8: `initialize_session_state` is idempotent on existing state: when
the `messages` list and the `session_id` are both already present, the
session state is left completely unchanged, so a session identifier is
generated at most once per browser session. -/
theorem c8_initialize_idempotent (now : String) (s : SessionState)
    (m : List Msg) (i : String)
    (hm : s.messages = some m) (hi : s.session_id = some i) :
    initialize_session_state now s = s := by
  simp only [initialize_session_state, hm, hi]

theorem c8_witness :
    sessEx.messages = some [] ∧ sessEx.session_id = some "session_1" ∧
    initialize_session_state "42" sessEx = sessEx :=
  ⟨rfl, rfl, c8_initialize_idempotent "42" sessEx [] "session_1" rfl rfl⟩

/-- C2 counterexample: the reset action derives the new session identifier
from the wall-clock timestamp alone; when the timestamp string at reset
equals the one embedded in the current identifier (a clock tie or a clock
set backwards), the "new" identifier equals the one held immediately
before, contradicting the claimed unconditional distinctness. -/
theorem c2_reset_id_collision :
    (clear_chat_history "123.0"
        { messages := some [Msg.human "oi"],
          session_id := some "session_123.0", df_loaded := true }).1.session_id
      = ({ messages := some [Msg.human "oi"],
           session_id := some "session_123.0", df_loaded := true } : SessionState).session_id := by
  decide

/-- C2 (amended): provided the timestamp-based identifier generated at
reset differs from the identifier held immediately before (true whenever
the clock has advanced since that identifier was generated), the reset
action stores a session identifier distinct from the previous one; the
visible transcript is empty afterwards unconditionally. -/
theorem c2_reset_fresh_id_distinct (now : String) (s : SessionState)
    (h : s.session_id ≠ some ("session_" ++ now)) :
    (clear_chat_history now s).1.session_id ≠ s.session_id ∧
    (clear_chat_history now s).1.messages = some [] := by
  refine ⟨fun he => h ?_, rfl⟩
  rw [← he]; rfl

theorem c2_witness :
    sessEx.session_id ≠ some ("session_" ++ "9") ∧
    ((clear_chat_history "9" sessEx).1.session_id ≠ sessEx.session_id ∧
      (clear_chat_history "9" sessEx).1.messages = some []) :=
  ⟨by decide, c2_reset_fresh_id_distinct "9" sessEx (by decide)⟩

theorem handle_preserves_fields (promptOpt : Option String) (r : AgentResult)
    (st : AppState) :
    (handle_chat_interaction promptOpt r st).1.df = st.df ∧
    (handle_chat_interaction promptOpt r st).1.sess.session_id = st.sess.session_id ∧
    (handle_chat_interaction promptOpt r st).1.sess.df_loaded = st.sess.df_loaded := by
  cases promptOpt with
  | none => exact ⟨rfl, rfl, rfl⟩
  | some p =>
    cases r with
    | success o eff =>
      simp only [handle_chat_interaction]
      split <;> exact ⟨rfl, rfl, rfl⟩
    | failure e => exact ⟨rfl, rfl, rfl⟩

theorem handle_messages_shape (prompt : String) (r : AgentResult) (st : AppState) :
    ∃ p, (handle_chat_interaction (some prompt) r st).1.sess.messages
      = some (st.sess.messages.getD [] ++ [Msg.human prompt, Msg.ai (aiContentOf r) p]) := by
  cases r with
  | success o eff =>
    simp only [handle_chat_interaction, aiContentOf]
    split
    · exact ⟨some ((st.plt.clf.applyEffect eff).cur), rfl⟩
    · exact ⟨none, rfl⟩
  | failure e => exact ⟨none, rfl⟩

/-- C6: the loaded dataset is never mutated by this repository's own code:
`load_csv` hands back exactly the parsed dataframe, agent construction
stores it unchanged, a chat interaction leaves the cached dataset equal to
what it was before, and the reset action does too (rendering,
`render_messages`, is a pure function of the transcript and does not touch
the dataset at all). -/
theorem c6_dataframe_not_mutated (df : DataFrame) (now : String)
    (promptOpt : Option String) (r : AgentResult) (st : AppState) :
    load_csv (Except.ok df) = (some df, []) ∧
    (initialize_agent df).df = df ∧
    (handle_chat_interaction promptOpt r st).1.df = st.df ∧
    (resetAction now st).1.df = st.df :=
  ⟨rfl, rfl, (handle_preserves_fields promptOpt r st).1, rfl⟩

/-- C10: every submitted question appends exactly two messages to the
visible transcript: the question as a human message followed by exactly one
assistant message, whose content is the agent's output on success and the
error text on failure, whether or not the agent call raised. -/
theorem c10_exactly_two_messages (prompt : String) (r : AgentResult)
    (st : AppState) :
    (∃ p, (handle_chat_interaction (some prompt) r st).1.sess.messages
        = some (st.sess.messages.getD []
            ++ [Msg.human prompt, Msg.ai (aiContentOf r) p])) ∧
    (∀ out eff, r = AgentResult.success out eff → aiContentOf r = out) ∧
    (∀ e, r = AgentResult.failure e → aiContentOf r = analysisError e) :=
  ⟨handle_messages_shape prompt r st,
   fun _ _ hr => by rw [hr]; rfl,
   fun _ hr => by rw [hr]; rfl⟩

/-- C4: any exception raised during the agent invocation is caught: its
text is surfaced both as an error box and as an assistant message appended
to the transcript, the session identifier, the cached dataset and all
previously stored messages are preserved, and a further question is still
processed and appended after the preserved transcript. -/
theorem c4_agent_failure_recovery (prompt e : String) (st : AppState) :
    (handle_chat_interaction (some prompt) (AgentResult.failure e) st).1.sess.messages
      = some (st.sess.messages.getD []
          ++ [Msg.human prompt, Msg.ai (analysisError e) none]) ∧
    UIEvent.errorBox (analysisError e)
      ∈ (handle_chat_interaction (some prompt) (AgentResult.failure e) st).2 ∧
    (handle_chat_interaction (some prompt) (AgentResult.failure e) st).1.sess.session_id
      = st.sess.session_id ∧
    (handle_chat_interaction (some prompt) (AgentResult.failure e) st).1.df = st.df ∧
    (∀ p2 r2, ∃ p,
      (handle_chat_interaction (some p2) r2
          (handle_chat_interaction (some prompt) (AgentResult.failure e) st).1).1.sess.messages
        = some ((st.sess.messages.getD []
              ++ [Msg.human prompt, Msg.ai (analysisError e) none])
            ++ [Msg.human p2, Msg.ai (aiContentOf r2) p])) := by
  refine ⟨rfl, ?_, rfl, rfl, ?_⟩
  · simp [handle_chat_interaction]
  · intro p2 r2
    obtain ⟨p, hp⟩ := handle_messages_shape p2 r2
      (handle_chat_interaction (some prompt) (AgentResult.failure e) st).1
    refine ⟨p, ?_⟩
    rw [hp]
    rfl

/-- C5: two questions asked sequentially in the same session (no reset in
between) both appear in that session's stored transcript, the first
strictly before the second: the transcript ends with the first question,
its answer, then the second question and its answer, after the previously
stored messages. -/
theorem c5_two_questions_in_order (p1 p2 : String) (r1 r2 : AgentResult)
    (st : AppState) :
    ∃ a1 a2 : Msg,
      (handle_chat_interaction (some p2) r2
          (handle_chat_interaction (some p1) r1 st).1).1.sess.messages
        = some (st.sess.messages.getD []
            ++ [Msg.human p1, a1] ++ [Msg.human p2, a2]) := by
  obtain ⟨q1, h1⟩ := handle_messages_shape p1 r1 st
  obtain ⟨q2, h2⟩ := handle_messages_shape p2 r2
    (handle_chat_interaction (some p1) r1 st).1
  refine ⟨Msg.ai (aiContentOf r1) q1, Msg.ai (aiContentOf r2) q2, ?_⟩
  rw [h2, h1]
  simp [List.append_assoc]

/-- C3: evaluation of the code at the failing input: two consecutive
questions whose generated code draws on the pyplot current figure.
`plt.gcf()` returns the same figure object (identity 0) after both calls,
so that one object is attached to both stored assistant messages, not to
exactly one, and `plt.clf()` has meanwhile blanked it in place. -/
theorem c3_shared_figure_attachment :
    ((handle_chat_interaction (some "q2")
        (AgentResult.success "r2" (PlotEffect.drawOnCurrent 1))
        (handle_chat_interaction (some "q1")
          (AgentResult.success "r1" (PlotEffect.drawOnCurrent 1))
          { sess := { messages := some [], session_id := some "s", df_loaded := true },
            store := [], plt := { nextFig := 1, cur := 0, curAxes := 0 },
            df := none }).1).1).sess.messages
      = some [Msg.human "q1", Msg.ai "r1" (some 0),
              Msg.human "q2", Msg.ai "r2" (some 0)] := by
  decide

/-- C1: a CSV upload that fails to parse never crashes `main` (the model is
total): `load_csv` shows an error box and returns `None`, and for that
upload `main` obtains no dataframe, initializes no agent, and processes no
chat interaction, whatever prompt was pending. -/
theorem c1_malformed_csv_halts (now apiKey e : String) (initErr : Option String)
    (promptOpt : Option String) (r : AgentResult) (st0 : AppState)
    (hkey : apiKey ≠ "") :
    load_csv (Except.error e)
      = (none, [UIEvent.errorBox ("Erro ao carregar o arquivo CSV: " ++ e)]) ∧
    (main now apiKey (some (Except.error e)) initErr promptOpt r st0).df = none ∧
    (main now apiKey (some (Except.error e)) initErr promptOpt r st0).agent = none ∧
    (main now apiKey (some (Except.error e)) initErr promptOpt r st0).chatProcessed = false ∧
    UIEvent.errorBox ("Erro ao carregar o arquivo CSV: " ++ e)
      ∈ (main now apiKey (some (Except.error e)) initErr promptOpt r st0).ui := by
  refine ⟨rfl, ?_, ?_, ?_, ?_⟩ <;>
    simp [main, hkey, load_csv]

theorem c1_witness :
    ("k" : String) ≠ "" ∧
    (load_csv (Except.error "bad")
        = (none, [UIEvent.errorBox ("Erro ao carregar o arquivo CSV: " ++ "bad")]) ∧
      (main "1" "k" (some (Except.error "bad")) none (some "oi")
          (AgentResult.failure "x") stEx).df = none ∧
      (main "1" "k" (some (Except.error "bad")) none (some "oi")
          (AgentResult.failure "x") stEx).agent = none ∧
      (main "1" "k" (some (Except.error "bad")) none (some "oi")
          (AgentResult.failure "x") stEx).chatProcessed = false ∧
      UIEvent.errorBox ("Erro ao carregar o arquivo CSV: " ++ "bad")
        ∈ (main "1" "k" (some (Except.error "bad")) none (some "oi")
            (AgentResult.failure "x") stEx).ui) :=
  ⟨by decide,
   c1_malformed_csv_halts "1" "k" "bad" none (some "oi")
     (AgentResult.failure "x") stEx (by decide)⟩

end App
